import Mathlib

/-!
Verification of the Model & Chain Orchestration Engine of obsidian-copilot.

The repository contains two coexisting variants of `ChatModelManager`
(`src/unnamed/part_002` holds both, separated by a document marker).  The
first variant (lines 1-524) is the one used by `chainManager.ts`; the second
variant (lines 525-926) is the newer one with the ping-retry protocol and
async activation.  We embed the first variant in namespace `V1` and the
second in namespace `V2`.  The streaming turn executor of
`langchainStream.ts` is embedded in namespace `Stream`.

JavaScript conventions used throughout the embedding:
- `a || b` on strings is `jsOrS` (empty string is falsy);
- optional object fields are `Option`;
- a JS object used as a map is an insertion-ordered association list with
  replacing insertion (`insertAL` / `lookupAL`);
- `throw` is the `Except.error` branch; external effects (network invoke,
  provider constructor) are oracles carried in the environment record.
-/

/-- JS `a || b` for an optional string `a` and default `b`: empty string is falsy. -/
def jsOrS (a : Option String) (b : String) : String :=
  match a with
  | some s => if s = "" then b else s
  | none => b

/-- JS object key update: replace the binding if present, else append. -/
def insertAL {β : Type} : List (String × β) → String → β → List (String × β)
  | [], k, v => [(k, v)]
  | (k', v') :: t, k, v =>
    if k' = k then (k, v) :: t else (k', v') :: insertAL t k v

/-- JS object key read. -/
def lookupAL {β : Type} : List (String × β) → String → Option β
  | [], _ => none
  | (k', v') :: t, k => if k' = k then some v' else lookupAL t k

/-- Is `needle` a leading segment of `hay`? (structural helper). -/
def charsLeadWith : List Char → List Char → Bool
  | [], _ => true
  | _ :: _, [] => false
  | a :: as, b :: bs => a == b && charsLeadWith as bs

/-- Does `needle` occur somewhere in `hay`? (structural helper). -/
def charsContain (needle : List Char) : List Char → Bool
  | [] => needle.isEmpty
  | b :: bs => charsLeadWith needle (b :: bs) || charsContain needle bs

/-- JS `hay.includes(needle)`. -/
def strContains (hay needle : String) : Bool :=
  charsContain needle.data hay.data

/-- Concatenation of a list of text fragments. -/
def concatStrs : List String → String
  | [] => ""
  | s :: ss => s ++ concatStrs ss

/-- Sender tag for assistant-authored chat messages (the `AI_SENDER` constant;
Modelled from the spec: `constants.ts` is not in the sources, the exact
string is immaterial, only its identity matters). -/
def AI_SENDER : String := "ai"

/-- A chat message as appended by `addMessage` callbacks. -/
structure ChatMessageL where
  sender : String
  message : String
  isVisible : Bool
  timestamp : String
  deriving DecidableEq, Repr

/-- `ChainType` enum of `chainFactory.ts`. -/
inductive ChainType where
  | llmChain
  | vaultQAChain
  | copilotPlusChain
  deriving DecidableEq, Repr

/-- One message of a chat prompt template: a system message, the history
placeholder, or the human `{input}` slot. -/
inductive PromptMsg where
  | system (s : String)
  | history
  | humanInput
  deriving DecidableEq, Repr

/-- A chat prompt template is a list of prompt messages. -/
def Prompt := List PromptMsg
  deriving DecidableEq, Repr

/-- `AzureDeployment` record from `types.ts`: the per-model-key Azure
deployment override. -/
structure AzureDeployment where
  modelKey : String
  modelFamily : String
  deploymentName : String
  instanceName : String
  apiVersion : String
  apiKey : String
  specialMaxCompletionTokens : Option Int := none
  specialReasoningEffort : Option Int := none
  deriving DecidableEq, Repr

/-- One registry entry of the chat-model map: credential presence, the
provider constructor (as a tag), and the vendor. -/
structure RegistryEntry where
  hasApiKey : Bool
  ctorTag : String
  vendor : String
  deriving DecidableEq, Repr

namespace V1

/-! Embedding of the first `ChatModelManager` variant
(`src/unnamed/part_002`, lines 1-524) and the pieces of `aiParams`,
`settings/model` and `types` it uses. -/

/-- Provider tag of Azure OpenAI; the literal `"azure openai"` appears in
`chainManager.ts` line 134. -/
def azureProvider : String := "azure openai"

/-- `CHAT_PROVIDER_CONSTRUCTORS`: provider tag to constructor (as a tag).
Modelled from the spec: `constants.ts` with the `ChatModelProviders` string
values is not under `src/`; only `"azure openai"` is pinned by `src/`
(`chainManager.ts`), the other spellings are immaterial to every claim. -/
def chatProviderCtors : List (String × String) :=
  [("openai", "ChatOpenAI"),
   (azureProvider, "ChatOpenAI"),
   ("anthropic", "ChatAnthropic"),
   ("cohereai", "ChatCohere"),
   ("google", "ChatGoogleGenerativeAI"),
   ("openrouterai", "ChatOpenAI"),
   ("ollama", "ChatOllama"),
   ("lm-studio", "ChatOpenAI"),
   ("groq", "ChatGroq"),
   ("3rd party (openai-format)", "ChatOpenAI")]

/-- `Object.values(ChatModelProviders)`. -/
def providerValues : List String := chatProviderCtors.map Prod.fst

/-- `CustomModel` of the first `aiParams` variant (`src/unnamed/part_003`,
lines 198-211). -/
structure CustomModel where
  name : String
  provider : String
  baseUrl : Option String := none
  apiKey : Option String := none
  enabled : Bool := true
  enableCors : Option Bool := none
  azureOpenAIApiInstanceName : Option String := none
  azureOpenAIApiDeploymentName : Option String := none
  azureOpenAIApiVersion : Option String := none
  deriving DecidableEq, Repr

/-- The per-model-key entry of `settings.modelConfigs`. -/
structure ModelKeyCfg where
  azureOpenAIApiDeploymentName : Option String := none
  azureOpenAIApiInstanceName : Option String := none
  azureOpenAIApiVersion : Option String := none
  reasoningEffort : Option Int := none
  deriving DecidableEq, Repr

/-- The slice of `CopilotSettings` (`src/unnamed/part_001`) read by the
embedded code. -/
structure Settings where
  openAIApiKey : String := ""
  openAIOrgId : String := ""
  googleApiKey : String := ""
  azureOpenAIApiKey : String := ""
  anthropicApiKey : String := ""
  cohereApiKey : String := ""
  openRouterAiApiKey : String := ""
  groqApiKey : String := ""
  azureOpenAIApiVersion : String := ""
  temperature : Rat := 1
  maxTokens : Int := 1000
  modelConfigs : List (String × ModelKeyCfg) := []
  azureOpenAIApiDeployments : List AzureDeployment := []
  activeModels : Option (List CustomModel) := none
  userSystemPrompt : String := ""
  deriving DecidableEq, Repr

/-- External collaborators and global reads: the settings snapshot, the
current model key (`getModelKey()`), the credential resolver
(`getDecryptedKey`), `BUILTIN_CHAT_MODELS`, the default system prompt,
and oracles for the effectful steps (embeddings readiness, provider
constructor success, the chain runner's outcome, the clock). -/
structure Env where
  settings : Settings
  decrypt : String → String
  builtins : List CustomModel
  defaultSystemPrompt : String
  embeddingsOk : Bool
  ctorOk : Bool
  runnerResult : Except String String
  now : String

/-- `getSystemPrompt()` of `settings/model` (`src/unnamed/part_001`,
lines 220-223). -/
def getSystemPrompt (env : Env) : String :=
  if env.settings.userSystemPrompt = "" then env.defaultSystemPrompt
  else env.defaultSystemPrompt ++ "\n\n" ++ env.settings.userSystemPrompt

/-- `ModelConfig` of `types.ts` together with the provider-specific fields
the builders may add (`configuration.fetch` presence is `corsFetch`;
`extraParams.reasoning_effort` is `extraReasoningEffort`; runtime-only
values such as callbacks and safety settings carry no data and are not
modelled). -/
structure ModelConfig where
  modelName : String
  temperature : Rat
  streaming : Bool
  maxRetries : Nat
  maxConcurrency : Nat
  enableCors : Option Bool := none
  azureOpenAIApiDeploymentName : String := ""
  azureOpenAIApiInstanceName : String := ""
  azureOpenAIApiVersion : String := ""
  azureOpenAIApiKey : Option String := none
  maxCompletionTokens : Option Int := none
  reasoningEffort : Option Int := none
  maxTokens : Option Int := none
  extraReasoningEffort : Option Int := none
  openAIApiKey : Option String := none
  anthropicApiKey : Option String := none
  apiKey : Option String := none
  model : Option String := none
  baseURL : Option String := none
  corsFetch : Bool := false
  dangerouslyAllowBrowser : Bool := false
  openAIOrgId : Option String := none
  deriving DecidableEq, Repr

/-- `getAzureModelConfig` (`src/unnamed/part_002`, lines 266-313).
`modelKey` is the value of the global `getModelKey()` at call time (the
key is only re-assigned by `setChatModel` after the config is built). -/
def getAzureModelConfig (env : Env) (modelKey : String) (customModel : CustomModel) :
    Except String ModelConfig :=
  let settings := env.settings
  let isO1PreviewModel := customModel.name == "o1-preview"
  match settings.azureOpenAIApiDeployments.find? (fun d => d.modelKey == modelKey) with
  | none => .error ("No Azure deployment found for model: " ++ modelKey)
  | some deployment =>
    let azureConfig : ModelConfig := {
      modelName := customModel.name
      temperature := settings.temperature
      streaming := true
      maxRetries := 3
      maxConcurrency := 3
      enableCors := customModel.enableCors
      azureOpenAIApiDeploymentName := deployment.deploymentName
      azureOpenAIApiInstanceName := deployment.instanceName
      azureOpenAIApiVersion := deployment.apiVersion
      azureOpenAIApiKey := some (env.decrypt deployment.apiKey)
      baseURL := customModel.baseUrl
      corsFetch := customModel.enableCors.getD false }
    .ok (if isO1PreviewModel then
      { azureConfig with
        maxCompletionTokens := deployment.specialMaxCompletionTokens
        reasoningEffort := deployment.specialReasoningEffort
        temperature := 1
        streaming := false
        maxTokens := none }
    else azureConfig)

/-- `handleAzureOpenAIExtraArgs` (`src/unnamed/part_002`, lines 329-352),
as an update of the config being built; the `reasoning_effort` spread is
guarded by JS truthiness (0 is falsy). -/
def handleAzureOpenAIExtraArgs (env : Env) (modelKey : String) (isO1PreviewModel : Bool)
    (maxTokens : Int) (temperature : Rat) (cfg : ModelConfig) : ModelConfig :=
  let modelKeyCfg := lookupAL env.settings.modelConfigs modelKey
  if isO1PreviewModel then
    { cfg with
      maxCompletionTokens := some maxTokens
      temperature := 1
      extraReasoningEffort :=
        match modelKeyCfg.bind ModelKeyCfg.reasoningEffort with
        | some r => if r == 0 then none else some r
        | none => none }
  else
    { cfg with maxTokens := some maxTokens, temperature := temperature }

/-- `getModelConfig` (`src/unnamed/part_002`, lines 99-264): base config,
settings validation, then the per-provider spread. -/
def getModelConfig (env : Env) (modelKey : String) (customModel : CustomModel) :
    Except String ModelConfig :=
  let settings := env.settings
  let modelName := customModel.name
  let isO1PreviewModel := modelName == "o1-preview"
  let mkCfg := lookupAL settings.modelConfigs modelKey
  let cors := customModel.enableCors.getD false
  let baseConfig : ModelConfig := {
    modelName := modelName
    temperature := settings.temperature
    streaming := true
    maxRetries := 3
    maxConcurrency := 3
    enableCors := customModel.enableCors
    azureOpenAIApiDeploymentName :=
      (mkCfg.bind ModelKeyCfg.azureOpenAIApiDeploymentName).getD ""
    azureOpenAIApiInstanceName :=
      (mkCfg.bind ModelKeyCfg.azureOpenAIApiInstanceName).getD ""
    azureOpenAIApiVersion :=
      (mkCfg.bind ModelKeyCfg.azureOpenAIApiVersion).getD "" }
  if settings.maxTokens ≤ 0 then
    .error "Invalid maxTokens value in settings. Please use a positive integer."
  else if settings.temperature < 0 ∨ settings.temperature > 2 then
    .error "Invalid temperature value in settings. Please use a number between 0 and 2."
  else
    .ok (
      if customModel.provider == "openai" then
        let c := { baseConfig with
          openAIApiKey := some (env.decrypt (jsOrS customModel.apiKey settings.openAIApiKey))
          baseURL := customModel.baseUrl
          corsFetch := cors }
        let c := handleAzureOpenAIExtraArgs env modelKey isO1PreviewModel settings.maxTokens
          settings.temperature c
        if settings.openAIOrgId ≠ "" then
          { c with openAIOrgId := some (env.decrypt settings.openAIOrgId) }
        else c
      else if customModel.provider == "anthropic" then
        { baseConfig with
          anthropicApiKey := some (env.decrypt (jsOrS customModel.apiKey settings.anthropicApiKey))
          baseURL := customModel.baseUrl
          corsFetch := cors }
      else if customModel.provider == azureProvider then
        handleAzureOpenAIExtraArgs env modelKey isO1PreviewModel settings.maxTokens settings.temperature
          { baseConfig with
            azureOpenAIApiKey := some (env.decrypt (jsOrS customModel.apiKey settings.azureOpenAIApiKey))
            azureOpenAIApiInstanceName := customModel.azureOpenAIApiInstanceName.getD ""
            azureOpenAIApiDeploymentName :=
              (mkCfg.bind ModelKeyCfg.azureOpenAIApiDeploymentName).getD ""
            azureOpenAIApiVersion := settings.azureOpenAIApiVersion
            baseURL := customModel.baseUrl
            corsFetch := cors }
      else if customModel.provider == "cohereai" then
        { baseConfig with
          apiKey := some (env.decrypt (jsOrS customModel.apiKey settings.cohereApiKey))
          model := some modelName }
      else if customModel.provider == "google" then
        { baseConfig with
          apiKey := some (env.decrypt (jsOrS customModel.apiKey settings.googleApiKey))
          baseURL := customModel.baseUrl }
      else if customModel.provider == "openrouterai" then
        { baseConfig with
          openAIApiKey := some (env.decrypt (jsOrS customModel.apiKey settings.openRouterAiApiKey))
          baseURL := some (jsOrS customModel.baseUrl "https://openrouter.ai/api/v1")
          corsFetch := cors }
      else if customModel.provider == "groq" then
        { baseConfig with
          apiKey := some (env.decrypt (jsOrS customModel.apiKey settings.groqApiKey)) }
      else if customModel.provider == "ollama" then
        { baseConfig with
          model := some modelName
          apiKey := some (jsOrS customModel.apiKey "default-key")
          baseURL := some (jsOrS customModel.baseUrl "http://localhost:11434") }
      else if customModel.provider == "lm-studio" then
        { baseConfig with
          openAIApiKey := some (jsOrS customModel.apiKey "default-key")
          baseURL := some (jsOrS customModel.baseUrl "http://localhost:1234/v1")
          corsFetch := cors }
      else if customModel.provider == "3rd party (openai-format)" then
        handleAzureOpenAIExtraArgs env modelKey isO1PreviewModel settings.maxTokens settings.temperature
          { baseConfig with
            openAIApiKey := some (env.decrypt (jsOrS customModel.apiKey settings.openAIApiKey))
            baseURL := customModel.baseUrl
            corsFetch := cors
            dangerouslyAllowBrowser := true }
      else baseConfig)

/-- The model key `name|provider`. -/
def modelKeyOf (m : CustomModel) : String := m.name ++ "|" ++ m.provider

/-- `providerApiKeyMap` (`src/unnamed/part_002`, lines 71-82). -/
def defaultKeyFor (settings : Settings) (p : String) : String :=
  if p == "openai" then settings.openAIApiKey
  else if p == "google" then settings.googleApiKey
  else if p == azureProvider then settings.azureOpenAIApiKey
  else if p == "anthropic" then settings.anthropicApiKey
  else if p == "cohereai" then settings.cohereApiKey
  else if p == "openrouterai" then settings.openRouterAiApiKey
  else if p == "groq" then settings.groqApiKey
  else if p == "ollama" || p == "lm-studio" || p == "3rd party (openai-format)" then
    "default-key"
  else ""

/-- `getProviderConstructor`, total on recognised providers. -/
def ctorOf (p : String) : String := (lookupAL chatProviderCtors p).getD ""

/-- The registry entry built for one enabled model
(`src/unnamed/part_002`, lines 369-379). -/
def mkEntry (settings : Settings) (m : CustomModel) : RegistryEntry :=
  let apiKey := jsOrS m.apiKey (defaultKeyFor settings m.provider)
  { hasApiKey := jsOrS m.apiKey apiKey != ""
    ctorTag := ctorOf m.provider
    vendor := m.provider }

/-- `activeModels ?? BUILTIN_CHAT_MODELS`. -/
def allModels (env : Env) : List CustomModel :=
  env.settings.activeModels.getD env.builtins

/-- One iteration of the `buildModelMap` loop: disabled models are skipped,
unrecognised providers are skipped (logged, not fatal), the rest are
inserted under their model key. -/
def buildModelMapStep (settings : Settings) (acc : List (String × RegistryEntry))
    (model : CustomModel) : List (String × RegistryEntry) :=
  if model.enabled then
    if providerValues.contains model.provider then
      insertAL acc (modelKeyOf model) (mkEntry settings model)
    else acc
  else acc

/-- `buildModelMap` (`src/unnamed/part_002`, lines 355-382): the previous
map is discarded (`ChatModelManager.modelMap = {}`) and rebuilt from the
active models alone. -/
def buildModelMap (_prevMap : List (String × RegistryEntry)) (env : Env) :
    List (String × RegistryEntry) :=
  (allModels env).foldl (buildModelMapStep env.settings) []

end V1

namespace V1

/-- A constructed chat-model instance: the data the rest of the engine reads
back from it (`modelName`, streaming flag). -/
structure ChatInstance where
  modelName : String
  streaming : Bool
  deriving DecidableEq, Repr

/-- The executable LLM chain built by `ChainFactory.createNewLLMChain`:
the model it is wired to and the prompt template. -/
structure ChainSpec where
  llmModelName : String
  prompt : Prompt
  deriving DecidableEq, Repr

/-- The conversational retrieval chain built for VAULT_QA. -/
structure RetrievalChainSpec where
  llmModelName : String
  systemMessage : String
  deriving DecidableEq, Repr

/-- The mutable singletons of `ChainManager` + `ChatModelManager` (variant
one): the active chat model, the registry, the current model key and chain
type, the two chains, and the prompt manager's globally selected chat
prompt. -/
structure CMState where
  chatModel : Option ChatInstance
  modelMap : List (String × RegistryEntry)
  modelKey : String
  chainType : ChainType
  chain : Option ChainSpec
  retrievalChain : Option RetrievalChainSpec
  chatPrompt : Prompt
  deriving DecidableEq, Repr

/-- The Azure required-field loop of `setChatModel`
(`src/unnamed/part_002`, lines 426-440): the first falsy field, if any. -/
def firstMissingAzureField (cfg : ModelConfig) : Option String :=
  if cfg.azureOpenAIApiKey.getD "" == "" then some "azureOpenAIApiKey"
  else if cfg.azureOpenAIApiInstanceName == "" then some "azureOpenAIApiInstanceName"
  else if cfg.azureOpenAIApiDeploymentName == "" then some "azureOpenAIApiDeploymentName"
  else if cfg.azureOpenAIApiVersion == "" then some "azureOpenAIApiVersion"
  else none

/-- `setChatModel` of the first variant (`src/unnamed/part_002`, lines
401-453).  Registry / credential / config errors throw with the state
untouched; after those checks the global model key is set, and a
constructor exception is caught and only logged (`catch` block, lines
449-452), leaving the previous chat model in place. -/
def setChatModel (env : Env) (st : CMState) (model : CustomModel) :
    CMState × Except String Unit :=
  let modelKey := modelKeyOf model
  match lookupAL st.modelMap modelKey with
  | none => (st, .error ("No model found for: " ++ modelKey))
  | some selectedModel =>
    if !selectedModel.hasApiKey then
      (st, .error ("API key is not provided for the model: " ++ modelKey ++
        ". Model switch failed."))
    else
      match (if model.provider == azureProvider then getAzureModelConfig env st.modelKey model
             else getModelConfig env st.modelKey model) with
      | .error e => (st, .error e)
      | .ok modelConfig =>
        match (if model.provider == azureProvider then firstMissingAzureField modelConfig
               else none) with
        | some fld =>
          (st, .error ("Missing required field: " ++ fld ++
            " for Azure OpenAI model: " ++ modelKey))
        | none =>
          let st := { st with modelKey := modelKey }
          if env.ctorOk then
            ({ st with chatModel := some ⟨modelConfig.modelName, modelConfig.streaming⟩ },
              .ok ())
          else
            (st, .ok ())

/-- `getChatModel` (`src/unnamed/part_002`, lines 394-399): throws when no
model is set. -/
def getChatModel (st : CMState) : Except String ChatInstance :=
  match st.chatModel with
  | none => .error "No valid chat model available. Please check your API key settings."
  | some m => .ok m

/-- `findCustomModel` of `aiParams` (`src/unnamed/part_003`, lines 261-263). -/
def findCustomModel (modelKey : String) (models : List CustomModel) :
    Option CustomModel :=
  models.find? (fun model => modelKeyOf model == modelKey)

/-- `SetChainOptions` as used by the embedded call sites. -/
structure SetChainOptionsL where
  prompt : Option Prompt := none
  refreshIndex : Bool := false

/-- The default system+history+input prompt shape and the system-free
shape built inline by `getEffectivePrompt` / `runChain`. -/
def noSystemPrompt : Prompt := [PromptMsg.history, PromptMsg.humanInput]

/-- `getEffectivePrompt` (`chainManager.ts`, lines 161-179). -/
def getEffectivePrompt (env : Env) (customModel : CustomModel) : Prompt :=
  let isO1PreviewModel := customModel.name == "o1-preview"
  if isO1PreviewModel then noSystemPrompt
  else PromptMsg.system (getSystemPrompt env) :: noSystemPrompt

/-- `setChain` (`chainManager.ts`, lines 181-261).  The guard reads
`getChatModel()`, which throws when no model is set; VAULT_QA and
COPILOT_PLUS first require the embeddings collaborator
(`initializeQAChain`).  Errors are returned next to the state reached so
far, because every caller invokes `setChain` without awaiting it. -/
def setChain (env : Env) (st : CMState) (chainType : ChainType)
    (options : SetChainOptionsL) : CMState × Except String Unit :=
  match st.chatModel with
  | none =>
    (st, .error "No valid chat model available. Please check your API key settings.")
  | some chatModel =>
    match chainType with
    | ChainType.llmChain =>
      ({ st with
          chain := some ⟨chatModel.modelName, options.prompt.getD st.chatPrompt⟩
          chainType := ChainType.llmChain }, .ok ())
    | ChainType.vaultQAChain =>
      if !env.embeddingsOk then
        (st, .error "Error getting embeddings API. Please check your settings.")
      else
        ({ st with
            retrievalChain := some ⟨chatModel.modelName, getSystemPrompt env⟩
            chainType := ChainType.vaultQAChain }, .ok ())
    | ChainType.copilotPlusChain =>
      if !env.embeddingsOk then
        (st, .error "Error getting embeddings API. Please check your settings.")
      else
        ({ st with
            chain := some ⟨chatModel.modelName, options.prompt.getD st.chatPrompt⟩
            chainType := ChainType.copilotPlusChain }, .ok ())

/-- Options of `runChain`. -/
structure RunOptions where
  debug : Bool := false
  ignoreSystemMessage : Bool := false

/-- `runChain` (`chainManager.ts`, lines 295-358).  Returns the state at
runner time (nothing mutates after the substitution step), the messages
added by the o1-preview error handler, and the turn's outcome. -/
def runChain (env : Env) (st : CMState) (options : RunOptions) :
    CMState × List ChatMessageL × Except String String :=
  match st.chatModel with
  | none =>
    (st, [],
      .error "Chat model is not initialized properly, check your API key in Copilot setting and make sure you have API access.")
  | some chatModel =>
    -- validateChainInitialization: self-heal a missing chain (errors of the
    -- un-awaited setChain are dropped)
    let st := if st.chain.isNone then (setChain env st st.chainType {}).1 else st
    let modelName := chatModel.modelName
    let isO1PreviewModel := modelName == "o1-preview"
    -- per-turn prompt substitution (un-awaited setChain)
    let st :=
      if options.ignoreSystemMessage || isO1PreviewModel then
        (setChain env st st.chainType { prompt := some noSystemPrompt }).1
      else st
    match env.runnerResult with
    | .ok text => (st, [], .ok text)
    | .error e =>
      if isO1PreviewModel then
        let errorMessage :=
          if strContains e "system message" then
            "Error: o1-preview models do not support system messages."
          else "Error in o1-preview model: " ++ e
        (st, [⟨AI_SENDER, errorMessage, true, env.now⟩], .ok errorMessage)
      else
        (st, [], .error e)

/-- The Azure deployment-override block of `createChainWithNewModel`
(`chainManager.ts`, lines 134-146). -/
def azureAdjust (env : Env) (key : String) (m : CustomModel) : CustomModel :=
  if m.provider == azureProvider then
    match env.settings.azureOpenAIApiDeployments.find? (fun d => d.modelKey == key) with
    | some deployment =>
      { m with
        apiKey := some deployment.apiKey
        azureOpenAIApiInstanceName := some deployment.instanceName
        azureOpenAIApiDeploymentName := some deployment.deploymentName
        azureOpenAIApiVersion := some deployment.apiVersion }
    | none => m
  else m

/-- Model resolution of `createChainWithNewModel` (`chainManager.ts`, lines
120-133): the configured model for the current key, else the first
built-in chat model with the key rewritten; `none` when even that is
impossible (a JS `TypeError`, swallowed by the surrounding catch). -/
def resolveTarget (env : Env) (key0 : String) : Option (CustomModel × String) :=
  match env.settings.activeModels with
  | none => none
  | some models =>
    match findCustomModel key0 models with
    | some m => some (m, key0)
    | none =>
      match env.builtins.head? with
      | some b => some (b, modelKeyOf b)
      | none => none

/-- The `try` block of `createChainWithNewModel` (`chainManager.ts`, lines
121-154): resolve (with fallback), apply the Azure override, switch the
model, then rebuild the chain (the `setChain` call is not awaited, so its
failures never reach the catch). -/
def createChainTry (env : Env) (st : CMState) : CMState × Except String Unit :=
  match resolveTarget env st.modelKey with
  | none => (st, .error "TypeError")
  | some (m, newModelKey) =>
    let customModel := azureAdjust env newModelKey m
    let (st1, r) := setChatModel env st customModel
    match r with
    | .error e => (st1, .error e)
    | .ok _ =>
      ((setChain env st1 st1.chainType
          { prompt := some (getEffectivePrompt env customModel) }).1, .ok ())

/-- `createChainWithNewModel` (`chainManager.ts`, lines 119-159): the whole
body is wrapped in try/catch whose catch only logs, so the caller always
gets the state reached so far and never an exception. -/
def createChainWithNewModel (env : Env) (st : CMState) : CMState :=
  (createChainTry env st).1

end V1

namespace V2

/-! Embedding of the second `ChatModelManager` variant
(`src/unnamed/part_002`, lines 525-926) and the second `aiParams` variant
(`src/unnamed/part_003`, lines 1-152) it imports. -/

/-- Provider tag of Azure OpenAI (same enum as in `V1`). -/
def azureProvider : String := V1.azureProvider

/-- `isO1PreviewModel` of `aiParams` (`src/unnamed/part_003`, lines
132-134): a substring test on the model name. -/
def isO1PreviewModel (modelName : String) : Bool :=
  strContains modelName "azure-openai/models/o1-preview"

/-- `CustomModel` of the second `aiParams` variant
(`src/unnamed/part_003`, lines 70-93). -/
structure CustomModel where
  name : String
  modelName : String
  provider : String
  baseUrl : Option String := none
  apiKey : Option String := none
  enabled : Bool := true
  enableCors : Option Bool := none
  stream : Option Bool := none
  temperature : Option Rat := none
  openAIOrgId : Option String := none
  azureOpenAIApiInstanceName : Option String := none
  azureOpenAIApiDeploymentName : Option String := none
  azureOpenAIApiVersion : Option String := none
  deriving DecidableEq, Repr

/-- The slice of the settings read by the second variant. -/
structure Settings where
  openAIApiKey : String := ""
  openAIOrgId : String := ""
  googleApiKey : String := ""
  azureOpenAIApiKey : String := ""
  anthropicApiKey : String := ""
  cohereApiKey : String := ""
  openRouterAiApiKey : String := ""
  groqApiKey : String := ""
  azureOpenAIApiInstanceName : String := ""
  azureOpenAIApiDeploymentName : String := ""
  azureOpenAIApiVersion : String := ""
  temperature : Rat := 1
  maxTokens : Int := 1000
  stream : Option Bool := none
  activeModels : Option (List CustomModel) := none
  deriving DecidableEq, Repr

/-- External collaborators of the second variant: settings snapshot, the
credential resolver, the network outcome of one ping `invoke` (a function
of the CORS flag, the only thing that differs between the two attempts),
and the provider constructor outcome. -/
structure Env where
  settings : Settings
  decrypt : String → String
  net : Bool → Except String Unit
  ctorOutcome : Except String Unit

/-- `ModelConfig` of the second `aiParams` variant (`base` part) plus the
per-provider fields the builder spreads on top. `stream` is the base-level
streaming flag (`src/unnamed/part_003`, line 40); `streaming` is the
provider-level key some provider blocks add. -/
structure ModelConfig where
  modelName : String
  temperature : Rat
  stream : Bool
  maxRetries : Nat
  maxConcurrency : Nat
  maxCompletionTokens : Option Int := none
  streaming : Option Bool := none
  openAIApiKey : Option String := none
  openAIOrgId : Option String := none
  azureOpenAIApiKey : Option String := none
  azureOpenAIApiInstanceName : Option String := none
  azureOpenAIApiDeploymentName : Option String := none
  azureOpenAIApiVersion : Option String := none
  anthropicApiKey : Option String := none
  apiKey : Option String := none
  model : Option String := none
  baseURL : Option String := none
  corsFetch : Bool := false
  dangerouslyAllowBrowser : Bool := false
  deriving DecidableEq, Repr

/-- The field-completeness pre-flight of `validateO1PreviewModel`
(`src/unnamed/part_002`, lines 847-871), as a predicate: some required
Azure field resolves to empty. -/
def o1AzureFieldMissing (settings : Settings) (customModel : CustomModel) : Bool :=
  jsOrS customModel.apiKey settings.azureOpenAIApiKey == "" ||
  jsOrS customModel.azureOpenAIApiInstanceName settings.azureOpenAIApiInstanceName == "" ||
  jsOrS customModel.azureOpenAIApiDeploymentName settings.azureOpenAIApiDeploymentName == "" ||
  jsOrS customModel.azureOpenAIApiVersion settings.azureOpenAIApiVersion == ""

/-- The per-provider spread of the second variant `getModelConfig`
(`src/unnamed/part_002`, lines 616-719), applied on top of the base
config; no provider block carries a `temperature` or `stream` key. -/
def providerSpread (env : Env) (customModel : CustomModel)
    (baseConfig : ModelConfig) : ModelConfig :=
  let settings := env.settings
  let cors := customModel.enableCors.getD false
  (
      if customModel.provider == "openai" then
        { baseConfig with
          openAIApiKey := some (env.decrypt (jsOrS customModel.apiKey settings.openAIApiKey))
          openAIOrgId := some (env.decrypt (jsOrS customModel.openAIOrgId settings.openAIOrgId))
          baseURL := customModel.baseUrl
          corsFetch := cors }
      else if customModel.provider == azureProvider then
        { baseConfig with
          azureOpenAIApiKey := some (env.decrypt (jsOrS customModel.apiKey settings.azureOpenAIApiKey))
          azureOpenAIApiInstanceName :=
            some (jsOrS customModel.azureOpenAIApiInstanceName settings.azureOpenAIApiInstanceName)
          azureOpenAIApiDeploymentName :=
            some (jsOrS customModel.azureOpenAIApiDeploymentName settings.azureOpenAIApiDeploymentName)
          azureOpenAIApiVersion :=
            some (jsOrS customModel.azureOpenAIApiVersion settings.azureOpenAIApiVersion)
          baseURL := customModel.baseUrl
          corsFetch := cors
          streaming := some false }
      else if customModel.provider == "anthropic" then
        { baseConfig with
          anthropicApiKey := some (env.decrypt (jsOrS customModel.apiKey settings.anthropicApiKey))
          baseURL := customModel.baseUrl
          corsFetch := cors
          streaming := some (customModel.stream.getD true) }
      else if customModel.provider == "cohereai" then
        { baseConfig with
          apiKey := some (env.decrypt (jsOrS customModel.apiKey settings.cohereApiKey))
          model := some customModel.modelName
          streaming := some (customModel.stream.getD true) }
      else if customModel.provider == "google" then
        { baseConfig with
          apiKey := some (env.decrypt (jsOrS customModel.apiKey settings.googleApiKey))
          baseURL := customModel.baseUrl
          streaming := some (customModel.stream.getD true) }
      else if customModel.provider == "openrouterai" then
        { baseConfig with
          openAIApiKey := some (env.decrypt (jsOrS customModel.apiKey settings.openRouterAiApiKey))
          baseURL := some (jsOrS customModel.baseUrl "https://openrouter.ai/api/v1")
          corsFetch := cors
          streaming := some (customModel.stream.getD true) }
      else if customModel.provider == "groq" then
        { baseConfig with
          apiKey := some (env.decrypt (jsOrS customModel.apiKey settings.groqApiKey))
          streaming := some (customModel.stream.getD true) }
      else if customModel.provider == "ollama" then
        { baseConfig with
          model := some customModel.modelName
          apiKey := some (jsOrS customModel.apiKey "default-key")
          baseURL := some (jsOrS customModel.baseUrl "http://localhost:11434")
          streaming := some (customModel.stream.getD true) }
      else if customModel.provider == "lm-studio" then
        { baseConfig with
          openAIApiKey := some (jsOrS customModel.apiKey "default-key")
          baseURL := some (jsOrS customModel.baseUrl "http://localhost:1234/v1")
          corsFetch := cors
          streaming := some (customModel.stream.getD true) }
      else if customModel.provider == "3rd party (openai-format)" then
        { baseConfig with
          openAIApiKey := some (env.decrypt (jsOrS customModel.apiKey settings.openAIApiKey))
          baseURL := customModel.baseUrl
          corsFetch := cors
          dangerouslyAllowBrowser := true
          streaming := some (customModel.stream.getD true) }
      else baseConfig)

/-- `getModelConfig` of the second variant (`src/unnamed/part_002`, lines
595-720): o1-preview pre-flight, base config (temperature and stream
forced for o1-preview), then the per-provider spread. -/
def getModelConfig (env : Env) (customModel : CustomModel) :
    Except String ModelConfig :=
  let settings := env.settings
  let isO1Preview := isO1PreviewModel customModel.modelName
  if isO1Preview && customModel.provider == azureProvider &&
      o1AzureFieldMissing settings customModel then
    .error "Azure OpenAI API key, instance name, deployment name, and API version are required. Please check your settings."
  else
    .ok (providerSpread env customModel
      { modelName := customModel.modelName
        temperature := if isO1Preview then 1 else customModel.temperature.getD settings.temperature
        stream := if isO1Preview then false
                  else customModel.stream.getD (settings.stream.getD true)
        maxRetries := 3
        maxConcurrency := 3
        maxCompletionTokens := if isO1Preview then some settings.maxTokens else none })

/-- `tryPing` inside `ping` (`src/unnamed/part_002`, lines 874-901): the
candidate is rebuilt with the given CORS flag, Azure o1-preview is skipped,
the config is rebuilt (its errors propagate) and a minimal invoke is
issued.  The token-budget trims (`maxTokens = 10`) do not influence the
abstract network oracle, which depends only on the CORS flag — the sole
difference between the two attempts. -/
def tryPing (env : Env) (model : CustomModel) (enableCors : Bool) :
    Except String Unit :=
  let modelToTest := { model with enableCors := some enableCors }
  let isO1Preview := isO1PreviewModel modelToTest.modelName
  if modelToTest.provider == azureProvider && isO1Preview then .ok ()
  else
    match getModelConfig env modelToTest with
    | .error e => .error e
    | .ok _modelConfig => env.net enableCors

/-- The one-time CORS warning `Notice` (`src/unnamed/part_002`, lines
912-914). -/
def corsNotice : String :=
  "Connection successful, but requires CORS to be enabled. Please enable CORS for this model once you add it above."

/-- `ping` of the second variant (`src/unnamed/part_002`, lines 903-925):
first attempt without CORS; on failure one retry with CORS (success is
flagged with the CORS notice); on double failure a combined error carrying
both messages. The returned list holds the notices surfaced to the caller. -/
def ping (env : Env) (model : CustomModel) : Except String (List String) :=
  match tryPing env model false with
  | .ok _ => .ok []
  | .error firstError =>
    match tryPing env model true with
    | .ok _ => .ok [corsNotice]
    | .error e =>
      .error ("\nwithout CORS Error: " ++ firstError ++ "\nwith CORS Error: " ++ e)

/-- A constructed chat-model instance of the second variant; it is built
with `streaming: stream` (`src/unnamed/part_002`, lines 802-806). -/
structure ChatInstance where
  modelName : String
  streaming : Bool
  deriving DecidableEq, Repr

/-- The instance-level mutable state of the second `ChatModelManager`. -/
structure State where
  chatModel : Option ChatInstance
  modelMap : List (String × RegistryEntry)
  modelKey : String
  deriving DecidableEq, Repr

/-- `getModelKeyFromModel`.  Modelled from the spec: the function lives in
the second variant's `settings/model`, which is not under `src/`; the
spec's glossary pins the model key as the unique `(name, provider)` pair. -/
def getModelKeyFromModel (m : CustomModel) : String := m.name ++ "|" ++ m.provider

/-- `setChatModel` of the second variant (`src/unnamed/part_002`, lines
767-817): registry and credential checks throw with the state untouched;
a ping failure for non-o1 models RESETS the chat model to `null` and
throws; after a successful ping the key is committed and a constructor
failure also resets the chat model to `null` and rethrows. -/
def setChatModel (env : Env) (st : State) (model : CustomModel) :
    State × Except String Unit :=
  let modelKey := getModelKeyFromModel model
  match lookupAL st.modelMap modelKey with
  | none => (st, .error ("No model found for: " ++ modelKey))
  | some selectedModel =>
    if !selectedModel.hasApiKey then
      (st, .error ("API key is not provided for the model: " ++ modelKey ++
        ". Model switch failed."))
    else
      match getModelConfig env model with
      | .error e => (st, .error e)
      | .ok modelConfig =>
        let isO1Preview := isO1PreviewModel model.modelName
        match (if isO1Preview then Except.ok [] else ping env model) with
        | .error e =>
          ({ st with chatModel := none },
            .error ("Failed to initialize model: " ++ modelKey ++ ". " ++ e))
        | .ok _notices =>
          let st := { st with modelKey := modelKey }
          match env.ctorOutcome with
          | .ok _ =>
            ({ st with chatModel := some ⟨modelConfig.modelName, modelConfig.stream⟩ },
              .ok ())
          | .error e =>
            ({ st with chatModel := none }, .error e)

/-- `getChatModel` of the second variant (`src/unnamed/part_002`, lines
760-765). -/
def getChatModel (st : State) : Except String ChatInstance :=
  match st.chatModel with
  | none => .error "No valid chat model available. Please check your API key settings."
  | some m => .ok m

end V2

namespace StreamExec

/-! Embedding of the streaming branch of `getAIResponse`
(`src/src/langchainStream.ts`, lines 48-70). -/

/-- One streamed chunk: either a plain string or a structured object whose
`content` may or may not be a string. -/
inductive StreamChunk where
  | strChunk (s : String)
  | objChunk (content : Option String)
  deriving DecidableEq, Repr

/-- `typeof chunk === "string" ? chunk : chunk.content`, kept only when it
is a string. -/
def chunkContent : StreamChunk → Option String
  | .strChunk s => some s
  | .objChunk c => c

/-- The `for await` accumulation loop (`langchainStream.ts`, lines 56-64):
at each fragment boundary the abort signal is read once (`ab i` is the
value observed at the i-th check, before consuming the i-th chunk); when
set, consumption stops without an error; otherwise the chunk's text, when
it is a string, is appended. -/
def streamAccum (ab : Nat → Bool) : List StreamChunk → Nat → String → String
  | [], _, acc => acc
  | c :: cs, i, acc =>
    if ab i then acc
    else
      match chunkContent c with
      | some s => streamAccum ab cs (i + 1) (acc ++ s)
      | none => streamAccum ab cs (i + 1) acc

/-- The final assistant message of the streaming path
(`langchainStream.ts`, lines 65-70): after the sequence ends or is
cancelled the cumulative text is emitted via `addMessage`. -/
def streamFinalMessage (ab : Nat → Bool) (chunks : List StreamChunk)
    (now : String) : ChatMessageL :=
  ⟨AI_SENDER, streamAccum ab chunks 0 "", true, now⟩

end StreamExec

/-! Concrete inputs used by the witnesses and counterexamples. -/

/-- A placeholder V1 config (only used as a `getD` default that is never
selected). -/
def cfgDefault1 : V1.ModelConfig :=
  { modelName := "", temperature := 0, streaming := false, maxRetries := 0, maxConcurrency := 0 }

/-- A placeholder V2 config (only used as a `getD` default that is never
selected). -/
def cfgDefault2 : V2.ModelConfig :=
  { modelName := "", temperature := 0, stream := false, maxRetries := 0, maxConcurrency := 0 }

def mC1 : V2.CustomModel := { name := "m", modelName := "m", provider := "groq" }

def stC1 : V2.State :=
  { chatModel := some ⟨"m", true⟩
    modelMap := [("m|groq", ⟨true, "ChatGroq", "groq"⟩)]
    modelKey := "m|groq" }

def envC1 : V2.Env :=
  { settings := {}
    decrypt := fun s => s
    net := fun _ => Except.error "bad key"
    ctorOutcome := Except.ok () }

def cfgC1 : V2.ModelConfig := (V2.getModelConfig envC1 mC1).toOption.getD cfgDefault2

def pingErrC1 : String := "\nwithout CORS Error: bad key\nwith CORS Error: bad key"

def depC2 : AzureDeployment :=
  { modelKey := "o1-preview|azure openai", modelFamily := "o1"
    deploymentName := "dep", instanceName := "inst", apiVersion := "2024-06", apiKey := "sek" }

def envC2a : V1.Env :=
  { settings := { azureOpenAIApiDeployments := [depC2], temperature := 1/2 }
    decrypt := fun s => s
    builtins := []
    defaultSystemPrompt := "d"
    embeddingsOk := true
    ctorOk := true
    runnerResult := Except.ok ""
    now := "t" }

def mC2a : V1.CustomModel := { name := "o1-preview", provider := V1.azureProvider }

def cfgC2a : V1.ModelConfig :=
  (V1.getAzureModelConfig envC2a "o1-preview|azure openai" mC2a).toOption.getD cfgDefault1

def mC2b : V2.CustomModel :=
  { name := "o1", modelName := "azure-openai/models/o1-preview", provider := V2.azureProvider
    apiKey := some "k"
    azureOpenAIApiInstanceName := some "i"
    azureOpenAIApiDeploymentName := some "d"
    azureOpenAIApiVersion := some "v" }

def envC2b : V2.Env :=
  { settings := { temperature := 1/2, stream := some true }
    decrypt := fun s => s
    net := fun _ => Except.ok ()
    ctorOutcome := Except.ok () }

def cfgC2b : V2.ModelConfig := (V2.getModelConfig envC2b mC2b).toOption.getD cfgDefault2

def mC4 : V2.CustomModel := { name := "g", modelName := "g", provider := "groq" }

def envC4 : V2.Env :=
  { settings := {}
    decrypt := fun s => s
    net := fun cors => if cors then Except.error "withCors" else Except.error "noCors"
    ctorOutcome := Except.ok () }

def mC5dis : V1.CustomModel := { name := "dead", provider := "openai", enabled := false }

def mC5en : V1.CustomModel := { name := "live", provider := "openai", apiKey := some "k" }

def envC5 : V1.Env :=
  { settings := { activeModels := some [mC5dis, mC5en] }
    decrypt := fun s => s
    builtins := []
    defaultSystemPrompt := ""
    embeddingsOk := true
    ctorOk := true
    runnerResult := Except.ok ""
    now := "" }

def depC6 : AzureDeployment :=
  { modelKey := "m|azure openai", modelFamily := "gpt"
    deploymentName := "override-dep", instanceName := "override-inst"
    apiVersion := "override-v", apiKey := "override-key" }

def envC6 : V1.Env :=
  { settings :=
      { azureOpenAIApiDeployments := [depC6]
        azureOpenAIApiKey := "global-key"
        azureOpenAIApiVersion := "global-v" }
    decrypt := fun s => s
    builtins := []
    defaultSystemPrompt := ""
    embeddingsOk := true
    ctorOk := true
    runnerResult := Except.ok ""
    now := "" }

def mC6 : V1.CustomModel := { name := "m", provider := V1.azureProvider }

def envC7 : V1.Env :=
  { settings := {}
    decrypt := fun s => s
    builtins := []
    defaultSystemPrompt := ""
    embeddingsOk := true
    ctorOk := true
    runnerResult := Except.ok ""
    now := "" }

def mC7 : V1.CustomModel := { name := "x", provider := V1.azureProvider }

def promptSysC8 : Prompt := [PromptMsg.system "sys", PromptMsg.history, PromptMsg.humanInput]

def stC8 : V1.CMState :=
  { chatModel := some ⟨"o1-preview", true⟩
    modelMap := []
    modelKey := "o1-preview|openai"
    chainType := ChainType.llmChain
    chain := some ⟨"o1-preview", promptSysC8⟩
    retrievalChain := none
    chatPrompt := promptSysC8 }

def envC8 : V1.Env :=
  { settings := {}
    decrypt := fun s => s
    builtins := []
    defaultSystemPrompt := "sys"
    embeddingsOk := true
    ctorOk := true
    runnerResult := Except.ok "hello"
    now := "t" }

def stC9 : V1.CMState :=
  { chatModel := some ⟨"o1-preview", false⟩
    modelMap := []
    modelKey := ""
    chainType := ChainType.llmChain
    chain := some ⟨"o1-preview", V1.noSystemPrompt⟩
    retrievalChain := none
    chatPrompt := V1.noSystemPrompt }

def envC9 : V1.Env :=
  { settings := {}
    decrypt := fun s => s
    builtins := []
    defaultSystemPrompt := ""
    embeddingsOk := true
    ctorOk := true
    runnerResult := Except.error "provider rejected the system message here"
    now := "t" }

def bC10 : V1.CustomModel := { name := "gpt-4o", provider := "openai" }

def stC10 : V1.CMState :=
  { chatModel := some ⟨"old", true⟩
    modelMap := []
    modelKey := "gone|openai"
    chainType := ChainType.llmChain
    chain := some ⟨"old", V1.noSystemPrompt⟩
    retrievalChain := none
    chatPrompt := V1.noSystemPrompt }

def envC10 : V1.Env :=
  { settings := { activeModels := some [] }
    decrypt := fun s => s
    builtins := [bC10]
    defaultSystemPrompt := ""
    embeddingsOk := true
    ctorOk := true
    runnerResult := Except.ok ""
    now := "" }

theorem lookupAL_insertAL {β : Type} (l : List (String × β)) (k k' : String) (v : β) :
    lookupAL (insertAL l k v) k' = if k' = k then some v else lookupAL l k' := by
  induction l with
  | nil =>
    by_cases h : k' = k
    · simp [insertAL, lookupAL, h]
    · simp [insertAL, lookupAL, h, Ne.symm h]
  | cons hd tl ih =>
    obtain ⟨k₀, v₀⟩ := hd
    by_cases h0 : k₀ = k
    · subst h0
      by_cases h : k' = k₀
      · simp [insertAL, lookupAL, h]
      · simp [insertAL, lookupAL, h, Ne.symm h]
    · by_cases h : k' = k
      · subst h
        simp [insertAL, lookupAL, h0, ih]
      · by_cases h1 : k₀ = k'
        · subst h1
          simp [insertAL, lookupAL, h0, h]
        · simp [insertAL, lookupAL, h0, h1, ih, h]

theorem str_append_empty (s : String) : s ++ "" = s := by
  apply String.ext
  simp [String.data_append]

theorem str_append_assoc (a b c : String) : a ++ b ++ c = a ++ (b ++ c) := by
  apply String.ext
  simp [String.data_append]

theorem StreamExec.streamAccum_of_ab (ab : Nat → Bool) (i : Nat) (h : ab i = true) :
    ∀ (chunks : List StreamExec.StreamChunk) (acc : String), StreamExec.streamAccum ab chunks i acc = acc := by
  intro chunks acc
  cases chunks with
  | nil => rfl
  | cons c cs => simp [StreamExec.streamAccum, h]

theorem StreamExec.streamAccum_bound (ab : Nat → Bool) :
    ∀ (frags : List String) (k i : Nat) (acc : String),
      (∀ j, j < k → ab (i + j) = false) →
      (∀ j, k + 1 ≤ j → ab (i + j) = true) →
      StreamExec.streamAccum ab (frags.map StreamExec.StreamChunk.strChunk) i acc
          = acc ++ concatStrs (frags.take k) ∨
        StreamExec.streamAccum ab (frags.map StreamExec.StreamChunk.strChunk) i acc
          = acc ++ concatStrs (frags.take (k + 1)) := by
  intro frags
  induction frags with
  | nil =>
    intro k i acc _ _
    left
    simp [StreamExec.streamAccum, concatStrs, str_append_empty]
  | cons f fs ih =>
    intro k i acc hlo hhi
    cases k with
    | zero =>
      cases hab : ab i with
      | true =>
        left
        simp [StreamExec.streamAccum, hab, concatStrs, str_append_empty]
      | false =>
        right
        have hnext : ab (i + 1) = true := by
          have := hhi 1 (by omega)
          simpa using this
        have hstop := StreamExec.streamAccum_of_ab ab (i + 1) hnext
          (fs.map StreamExec.StreamChunk.strChunk) (acc ++ f)
        simp [StreamExec.streamAccum, hab, StreamExec.chunkContent, hstop, concatStrs, str_append_empty]
    | succ k' =>
      have h0 : ab i = false := by
        have := hlo 0 (by omega)
        simpa using this
      have hlo' : ∀ j, j < k' → ab (i + 1 + j) = false := by
        intro j hj
        have := hlo (j + 1) (by omega)
        simpa [Nat.add_assoc, Nat.add_comm 1 j] using this
      have hhi' : ∀ j, k' + 1 ≤ j → ab (i + 1 + j) = true := by
        intro j hj
        have := hhi (j + 1) (by omega)
        simpa [Nat.add_assoc, Nat.add_comm 1 j] using this
      have := ih k' (i + 1) (acc ++ f) hlo' hhi'
      cases this with
      | inl h =>
        left
        simp [StreamExec.streamAccum, h0, StreamExec.chunkContent, h, concatStrs, str_append_assoc]
      | inr h =>
        right
        simp [StreamExec.streamAccum, h0, StreamExec.chunkContent, h, concatStrs, str_append_assoc]

/-- C7: for every descriptor whose provider is Azure OpenAI, when no
`AzureDeployment` override matches the current model key, building the
request configuration fails with an error stating that no deployment was
found for the model, and no configuration is produced. -/
theorem c7_azure_missing_deployment_fails (env : V1.Env) (modelKey : String)
    (m : V1.CustomModel) (_hprov : m.provider = V1.azureProvider)
    (h : env.settings.azureOpenAIApiDeployments.find? (fun d => d.modelKey == modelKey)
      = none) :
    V1.getAzureModelConfig env modelKey m =
      Except.error ("No Azure deployment found for model: " ++ modelKey) := by
  simp [V1.getAzureModelConfig, h]

theorem c7_witness :
    V1.getAzureModelConfig envC7 "x|azure openai" mC7 =
      Except.error ("No Azure deployment found for model: " ++ "x|azure openai") :=
  c7_azure_missing_deployment_fails envC7 "x|azure openai" mC7 rfl rfl

/-- C6: when an `AzureDeployment` override exists for the current model
key, the built config's deployment-name, instance-name, api-version and
api-key fields come from the override (the key passing through the
credential resolver), whatever the global Azure settings hold. -/
theorem c6_azure_override_precedence (env : V1.Env) (modelKey : String)
    (m : V1.CustomModel) (d : AzureDeployment)
    (h : env.settings.azureOpenAIApiDeployments.find? (fun dd => dd.modelKey == modelKey)
      = some d) :
    ∃ cfg, V1.getAzureModelConfig env modelKey m = Except.ok cfg ∧
      cfg.azureOpenAIApiDeploymentName = d.deploymentName ∧
      cfg.azureOpenAIApiInstanceName = d.instanceName ∧
      cfg.azureOpenAIApiVersion = d.apiVersion ∧
      cfg.azureOpenAIApiKey = some (env.decrypt d.apiKey) := by
  simp only [V1.getAzureModelConfig, h]
  refine ⟨_, rfl, ?_, ?_, ?_, ?_⟩ <;> (split <;> rfl)

theorem c6_witness :
    ∃ cfg, V1.getAzureModelConfig envC6 "m|azure openai" mC6 = Except.ok cfg ∧
      cfg.azureOpenAIApiDeploymentName = "override-dep" ∧
      cfg.azureOpenAIApiInstanceName = "override-inst" ∧
      cfg.azureOpenAIApiVersion = "override-v" ∧
      cfg.azureOpenAIApiKey = some "override-key" :=
  c6_azure_override_precedence envC6 "m|azure openai" mC6 depC6 rfl

/-- No provider block of the second variant sets a `temperature` key, so
the spread preserves the base temperature
(`src/unnamed/part_002`, lines 616-719). -/
theorem V2.providerSpread_temperature (env : V2.Env) (m : V2.CustomModel)
    (c : V2.ModelConfig) : (V2.providerSpread env m c).temperature = c.temperature := by
  simp only [V2.providerSpread]
  simp [apply_ite V2.ModelConfig.temperature]

/-- No provider block of the second variant sets a `stream` key, so the
spread preserves the base streaming flag. -/
theorem V2.providerSpread_stream (env : V2.Env) (m : V2.CustomModel)
    (c : V2.ModelConfig) : (V2.providerSpread env m c).stream = c.stream := by
  simp only [V2.providerSpread]
  simp [apply_ite V2.ModelConfig.stream]

/-- C2: for every reasoning-only-variant (o1-preview) descriptor, both
config builders cited by the spec force the streaming flag off and the
temperature to the fixed value 1, regardless of the temperature in global
settings or on the descriptor: the first variant's `getAzureModelConfig`
and the second variant's `getModelConfig`. -/
theorem c2_o1_forced_temperature_and_streaming
    (env1 : V1.Env) (key1 : String) (m1 : V1.CustomModel) (cfg1 : V1.ModelConfig)
    (env2 : V2.Env) (m2 : V2.CustomModel) (cfg2 : V2.ModelConfig)
    (h1 : m1.name = "o1-preview")
    (h1ok : V1.getAzureModelConfig env1 key1 m1 = Except.ok cfg1)
    (h2 : V2.isO1PreviewModel m2.modelName = true)
    (h2ok : V2.getModelConfig env2 m2 = Except.ok cfg2) :
    (cfg1.temperature = 1 ∧ cfg1.streaming = false) ∧
      (cfg2.temperature = 1 ∧ cfg2.stream = false) := by
  constructor
  · simp only [V1.getAzureModelConfig] at h1ok
    split at h1ok
    · exact absurd h1ok (by simp)
    · rw [show (m1.name == "o1-preview") = true by simp [h1]] at h1ok
      simp only [if_true, Except.ok.injEq] at h1ok
      subst h1ok
      exact ⟨rfl, rfl⟩
  · simp only [V2.getModelConfig, h2] at h2ok
    split at h2ok
    · exact absurd h2ok (by simp)
    · simp only [Except.ok.injEq] at h2ok
      subst h2ok
      exact ⟨V2.providerSpread_temperature env2 m2 _, V2.providerSpread_stream env2 m2 _⟩

theorem c2_witness :
    ((cfgC2a.temperature = 1 ∧ cfgC2a.streaming = false) ∧
      (cfgC2b.temperature = 1 ∧ cfgC2b.stream = false)) :=
  c2_o1_forced_temperature_and_streaming envC2a "o1-preview|azure openai" mC2a cfgC2a
    envC2b mC2b cfgC2b rfl rfl rfl rfl

/-- C4: the ping retry protocol of the second variant.  The first attempt
runs with CORS disabled; when it succeeds, `ping` succeeds with no CORS
signal.  When it fails: a successful CORS-enabled retry makes `ping`
succeed and surface the CORS-required notice; a second failure makes
`ping` fail with a message carrying both underlying error strings
verbatim — the first error is never dropped. -/
theorem c4_ping_retry_protocol (env : V2.Env) (m : V2.CustomModel) :
    (V2.tryPing env m false = Except.ok () → V2.ping env m = Except.ok []) ∧
    (∀ e1, V2.tryPing env m false = Except.error e1 →
      (V2.tryPing env m true = Except.ok () →
        V2.ping env m = Except.ok [V2.corsNotice]) ∧
      (∀ e2, V2.tryPing env m true = Except.error e2 →
        V2.ping env m = Except.error
          ("\nwithout CORS Error: " ++ e1 ++ "\nwith CORS Error: " ++ e2))) := by
  constructor
  · intro h
    simp [V2.ping, h]
  · intro e1 h1
    constructor
    · intro h2
      simp [V2.ping, h1, h2]
    · intro e2 h2
      simp [V2.ping, h1, h2]

theorem c4_witness :
    V2.ping envC4 mC4 =
      Except.error ("\nwithout CORS Error: " ++ "noCors" ++ "\nwith CORS Error: " ++ "withCors") :=
  ((c4_ping_retry_protocol envC4 mC4).2 "noCors" rfl).2 "withCors" rfl

/-- Every binding produced by the `buildModelMap` fold either was already
in the accumulator or comes from an enabled model of the list. -/
theorem buildFold_lookup (settings : V1.Settings) :
    ∀ (models : List V1.CustomModel) (acc : List (String × RegistryEntry))
      (k : String) (e : RegistryEntry),
      lookupAL (models.foldl (V1.buildModelMapStep settings) acc) k = some e →
      lookupAL acc k = some e ∨
        ∃ m, m ∈ models ∧ m.enabled = true ∧ V1.modelKeyOf m = k := by
  intro models
  induction models with
  | nil =>
    intro acc k e h
    exact Or.inl h
  | cons m ms ih =>
    intro acc k e h
    simp only [List.foldl_cons] at h
    rcases ih _ k e h with h' | ⟨m', hm', hen', hk'⟩
    · unfold V1.buildModelMapStep at h'
      cases hen : m.enabled with
      | false =>
        rw [hen] at h'
        exact Or.inl (by simpa using h')
      | true =>
        rw [hen] at h'
        by_cases hpv : V1.providerValues.contains m.provider
        · simp only [if_true, hpv, if_pos] at h'
          rw [lookupAL_insertAL] at h'
          by_cases hk : k = V1.modelKeyOf m
          · exact Or.inr ⟨m, by simp, hen, hk.symm⟩
          · rw [if_neg hk] at h'
            exact Or.inl h'
        · simp only [hpv, if_false, if_true] at h'
          exact Or.inl h'
    · exact Or.inr ⟨m', by simp [hm'], hen', hk'⟩

/-- C5: the rebuilt registry never depends on the previous registry (full
replacement, never a merge), every entry it holds comes from an enabled
model of the given set, and a disabled model whose key is not shared with
any enabled model has no entry. -/
theorem c5_registry_rebuild (env : V1.Env)
    (prevMap prevMap' : List (String × RegistryEntry)) :
    V1.buildModelMap prevMap env = V1.buildModelMap prevMap' env ∧
    (∀ k e, lookupAL (V1.buildModelMap prevMap env) k = some e →
      ∃ m, m ∈ V1.allModels env ∧ m.enabled = true ∧ V1.modelKeyOf m = k) ∧
    (∀ m, m ∈ V1.allModels env → m.enabled = false →
      (∀ m', m' ∈ V1.allModels env → m'.enabled = true →
        V1.modelKeyOf m' ≠ V1.modelKeyOf m) →
      lookupAL (V1.buildModelMap prevMap env) (V1.modelKeyOf m) = none) := by
  refine ⟨rfl, ?_, ?_⟩
  · intro k e h
    rcases buildFold_lookup env.settings (V1.allModels env) [] k e h with h' | h'
    · simp [lookupAL] at h'
    · exact h'
  · intro m hm hdis huniq
    cases hlook : lookupAL (V1.buildModelMap prevMap env) (V1.modelKeyOf m) with
    | none => rfl
    | some e =>
      rcases buildFold_lookup env.settings (V1.allModels env) [] _ e hlook with h' | ⟨m', hm', hen', hk'⟩
      · simp [lookupAL] at h'
      · exact absurd hk' (huniq m' hm' hen')

theorem c5_witness :
    lookupAL (V1.buildModelMap [("stale|openai", ⟨true, "ChatOpenAI", "openai"⟩)] envC5)
      (V1.modelKeyOf mC5dis) = none :=
  (c5_registry_rebuild envC5 [("stale|openai", ⟨true, "ChatOpenAI", "openai"⟩)] []).2.2
    mC5dis (by simp [V1.allModels, envC5]) rfl (by decide)

theorem str_empty_append (s : String) : "" ++ s = s := by
  apply String.ext
  simp [String.data_append]

/-- C3: cancellation bound of the streaming path.  For a stream of textual
fragments, when the abort flag is unset at the checks before fragments
1..k ("cancellation requested after fragment k is consumed") and set from
check k+1 onwards, the text of the final emitted assistant message is the
concatenation of the first k or of the first k+1 fragments, never more;
consumption ends without an error and the accumulated text is still
emitted as the final message. -/
theorem c3_cancellation_bound (ab : Nat → Bool) (frags : List String) (k : Nat)
    (now : String)
    (hlo : ∀ j, j < k → ab j = false)
    (hhi : ∀ j, k + 1 ≤ j → ab j = true) :
    ((StreamExec.streamFinalMessage ab (frags.map StreamExec.StreamChunk.strChunk) now).message
        = concatStrs (frags.take k) ∨
      (StreamExec.streamFinalMessage ab (frags.map StreamExec.StreamChunk.strChunk) now).message
        = concatStrs (frags.take (k + 1))) ∧
    (StreamExec.streamFinalMessage ab (frags.map StreamExec.StreamChunk.strChunk) now).sender
      = AI_SENDER := by
  constructor
  · have h := StreamExec.streamAccum_bound ab frags k 0 "" (by simpa using hlo)
      (by simpa using hhi)
    rcases h with h | h <;>
      [left; right] <;>
      simp [StreamExec.streamFinalMessage, h, str_empty_append]
  · rfl

theorem c3_witness :
    ((StreamExec.streamFinalMessage (fun _ => true)
        (["alpha", "beta"].map StreamExec.StreamChunk.strChunk) "t").message
      = concatStrs (["alpha", "beta"].take 0) ∨
     (StreamExec.streamFinalMessage (fun _ => true)
        (["alpha", "beta"].map StreamExec.StreamChunk.strChunk) "t").message
      = concatStrs (["alpha", "beta"].take 1)) ∧
    (StreamExec.streamFinalMessage (fun _ => true)
        (["alpha", "beta"].map StreamExec.StreamChunk.strChunk) "t").sender = AI_SENDER :=
  c3_cancellation_bound (fun _ => true) ["alpha", "beta"] 0 "t"
    (fun j hj => absurd hj (Nat.not_lt_zero j))
    (fun _ _ => rfl)

/-- C1 counterexample: a currently-active model `M` and a candidate whose
ping fails (invalid key).  After the failed `setChatModel` the active chat
model is NOT the previously active `M`: the claim's equality fails at this
input (the code resets the model to absent, lines 793-794 of
`src/unnamed/part_002`). -/
theorem c1_counterexample :
    (V2.ping envC1 mC1).isOk = false ∧
    stC1.chatModel = some ⟨"m", true⟩ ∧
    ¬ ((V2.setChatModel envC1 stC1 mC1).1.chatModel = stC1.chatModel) := by
  refine ⟨rfl, rfl, ?_⟩
  decide

/-- C1 amended: activation is *fail-stop*, not rollback — when the
candidate's ping fails during a non-reasoning activation, the whole
activation fails AND the active chat model is reset to absent (so a
subsequent `getChatModel` raises); it is not left at the previously
active model. -/
theorem c1_ping_failure_resets_model (env : V2.Env) (st : V2.State)
    (m : V2.CustomModel) (entry : RegistryEntry) (cfg : V2.ModelConfig) (e : String)
    (hmap : lookupAL st.modelMap (V2.getModelKeyFromModel m) = some entry)
    (hkey : entry.hasApiKey = true)
    (hcfg : V2.getModelConfig env m = Except.ok cfg)
    (ho1 : V2.isO1PreviewModel m.modelName = false)
    (hping : V2.ping env m = Except.error e) :
    (V2.setChatModel env st m).1.chatModel = none ∧
    (V2.setChatModel env st m).2 =
      Except.error ("Failed to initialize model: " ++ V2.getModelKeyFromModel m ++ ". " ++ e) ∧
    V2.getChatModel (V2.setChatModel env st m).1 =
      Except.error "No valid chat model available. Please check your API key settings." := by
  simp only [V2.setChatModel, hmap, hkey, hcfg, ho1, hping]
  simp [V2.getChatModel]

theorem c1_witness :
    (V2.setChatModel envC1 stC1 mC1).1.chatModel = none ∧
    (V2.setChatModel envC1 stC1 mC1).2 =
      Except.error ("Failed to initialize model: " ++ V2.getModelKeyFromModel mC1 ++ ". " ++ pingErrC1) ∧
    V2.getChatModel (V2.setChatModel envC1 stC1 mC1).1 =
      Except.error "No valid chat model available. Please check your API key settings." :=
  c1_ping_failure_resets_model envC1 stC1 mC1 ⟨true, "ChatGroq", "groq"⟩ cfgC1 pingErrC1
    rfl rfl rfl rfl rfl

/-- C8 counterexample: with an o1-preview active model and an LLM chain
built from the system prompt, running a turn rebuilds the global chain
with the system-free prompt and does NOT restore it: the chain observed
after the turn differs from the one observed before, refuting the claim's
frame condition at this input. -/
theorem c8_counterexample :
    stC8.chatModel = some ⟨"o1-preview", true⟩ ∧
    stC8.chain = some ⟨"o1-preview", promptSysC8⟩ ∧
    (V1.runChain envC8 stC8 {}).1.chain ≠ stC8.chain := by
  refine ⟨rfl, rfl, ?_⟩
  decide

/-- C8 amended: on the LLM chain path, a turn with a reasoning-only active
model (or an explicit request to suppress system messages) runs against a
chain rebuilt from the system-message-free prompt, and the globally
selected prompt template is untouched — but the rebuilt chain stays in
place after the turn (it is not restored). -/
theorem c8_prompt_substitution (env : V1.Env) (st : V1.CMState)
    (opts : V1.RunOptions) (cm : V1.ChatInstance)
    (hmodel : st.chatModel = some cm)
    (hchain : st.chain.isSome = true)
    (htype : st.chainType = ChainType.llmChain)
    (hsub : opts.ignoreSystemMessage = true ∨ cm.modelName = "o1-preview") :
    (V1.runChain env st opts).1.chain = some ⟨cm.modelName, V1.noSystemPrompt⟩ ∧
    (V1.runChain env st opts).1.chatPrompt = st.chatPrompt := by
  have hcond : (opts.ignoreSystemMessage || (cm.modelName == "o1-preview")) = true := by
    rcases hsub with h | h <;> simp [h]
  obtain ⟨c0, hc0⟩ := Option.isSome_iff_exists.mp hchain
  rcases hr : env.runnerResult with e | t
  · simp [V1.runChain, V1.setChain, hmodel, hc0, hcond, htype, hr]
    split <;> simp
  · simp [V1.runChain, V1.setChain, hmodel, hc0, hcond, htype, hr]

theorem c8_witness :
    (V1.runChain envC8 stC8 { ignoreSystemMessage := true }).1.chain
        = some ⟨"o1-preview", V1.noSystemPrompt⟩ ∧
    (V1.runChain envC8 stC8 { ignoreSystemMessage := true }).1.chatPrompt
        = stC8.chatPrompt :=
  c8_prompt_substitution envC8 stC8 { ignoreSystemMessage := true } ⟨"o1-preview", true⟩
    rfl rfl rfl (Or.inl rfl)

/-- C9: turn-failure translation.  When the chain runner fails: with an
o1-preview active model and an error message containing "system message",
the turn returns the explanatory assistant message (added, visible,
timestamped) instead of propagating; with a non-reasoning active model
the failure is propagated to the caller unchanged and no message is
added by the handler. -/
theorem c9_turn_failure_translation (env : V1.Env) (st : V1.CMState)
    (opts : V1.RunOptions) (cm : V1.ChatInstance) (e : String)
    (hmodel : st.chatModel = some cm)
    (hrun : env.runnerResult = Except.error e) :
    (cm.modelName = "o1-preview" → strContains e "system message" = true →
      (V1.runChain env st opts).2.2 =
        Except.ok "Error: o1-preview models do not support system messages." ∧
      (V1.runChain env st opts).2.1 =
        [⟨AI_SENDER, "Error: o1-preview models do not support system messages.", true, env.now⟩]) ∧
    (cm.modelName ≠ "o1-preview" →
      (V1.runChain env st opts).2.2 = Except.error e ∧
      (V1.runChain env st opts).2.1 = []) := by
  constructor
  · intro ho1 hmsg
    simp [V1.runChain, hmodel, hrun, ho1, hmsg]
  · intro ho1
    have ho1' : (cm.modelName == "o1-preview") = false := by
      simp [ho1]
    simp [V1.runChain, hmodel, hrun, ho1']

theorem c9_witness :
    (V1.runChain envC9 stC9 {}).2.2 =
      Except.ok "Error: o1-preview models do not support system messages." ∧
    (V1.runChain envC9 stC9 {}).2.1 =
      [⟨AI_SENDER, "Error: o1-preview models do not support system messages.", true, "t"⟩] :=
  (c9_turn_failure_translation envC9 stC9 {} ⟨"o1-preview", false⟩
      "provider rejected the system message here" rfl rfl).1 rfl rfl

/-- `setChatModel` (first variant) either succeeds — having committed the
new model key — or fails with the state untouched (every throw happens
before any mutation; a constructor exception is swallowed). -/
theorem V1.setChatModel_spec (env : V1.Env) (st : V1.CMState) (m : V1.CustomModel) :
    ((V1.setChatModel env st m).2 = Except.ok () ∧
      (V1.setChatModel env st m).1.modelKey = V1.modelKeyOf m) ∨
    ((∃ e, (V1.setChatModel env st m).2 = Except.error e) ∧
      (V1.setChatModel env st m).1 = st) := by
  simp only [V1.setChatModel]
  split
  · exact Or.inr ⟨⟨_, rfl⟩, rfl⟩
  · split
    · exact Or.inr ⟨⟨_, rfl⟩, rfl⟩
    · split
      · exact Or.inr ⟨⟨_, rfl⟩, rfl⟩
      · split
        · exact Or.inr ⟨⟨_, rfl⟩, rfl⟩
        · split
          · exact Or.inl ⟨rfl, rfl⟩
          · exact Or.inl ⟨rfl, rfl⟩

/-- `setChain` never touches the global model key. -/
theorem V1.setChain_modelKey (env : V1.Env) (st : V1.CMState) (t : ChainType)
    (o : V1.SetChainOptionsL) : (V1.setChain env st t o).1.modelKey = st.modelKey := by
  unfold V1.setChain
  repeat' split
  all_goals rfl

/-- The Azure override block only rewrites credential/endpoint fields, so
the model key of the adjusted model is unchanged. -/
theorem V1.modelKeyOf_azureAdjust (env : V1.Env) (k : String) (m : V1.CustomModel) :
    V1.modelKeyOf (V1.azureAdjust env k m) = V1.modelKeyOf m := by
  unfold V1.azureAdjust
  repeat' split
  all_goals rfl

/-- C10: `createChainWithNewModel` never raises — it always returns the
state the try block reached (the catch only logs); when the try block
fails, the previously active model and chain are left in place; and when
no active model configuration matches the current key, it silently falls
back to the first built-in chat model, rewriting the model key to that
model's name|provider pair (committed on success). -/
theorem c10_create_chain_never_raises (env : V1.Env) (st : V1.CMState) :
    V1.createChainWithNewModel env st = (V1.createChainTry env st).1 ∧
    (∀ e, (V1.createChainTry env st).2 = Except.error e →
      (V1.createChainTry env st).1.chatModel = st.chatModel ∧
      (V1.createChainTry env st).1.chain = st.chain) ∧
    (∀ models m0, env.settings.activeModels = some models →
      V1.findCustomModel st.modelKey models = none →
      env.builtins.head? = some m0 →
      V1.resolveTarget env st.modelKey = some (m0, V1.modelKeyOf m0) ∧
      ((V1.createChainTry env st).2 = Except.ok () →
        (V1.createChainTry env st).1.modelKey = V1.modelKeyOf m0)) := by
  refine ⟨rfl, ?_, ?_⟩
  · intro e he
    unfold V1.createChainTry at he ⊢
    cases hres : V1.resolveTarget env st.modelKey with
    | none =>
      exact ⟨rfl, rfl⟩
    | some t =>
      obtain ⟨m, key⟩ := t
      rw [hres] at he
      dsimp only at he ⊢
      rcases hspec : V1.setChatModel env st (V1.azureAdjust env key m) with ⟨st1, r⟩
      rw [hspec] at he
      dsimp only at he ⊢
      cases r with
      | ok u => exact Except.noConfusion he
      | error e' =>
        rcases V1.setChatModel_spec env st (V1.azureAdjust env key m) with ⟨hok, _⟩ | ⟨_, hst⟩
        · rw [hspec] at hok
          exact absurd hok (by simp)
        · rw [hspec] at hst
          have hst' : st1 = st := hst
          subst hst'
          exact ⟨rfl, rfl⟩
  · intro models m0 hact hfind hhead
    have hres : V1.resolveTarget env st.modelKey = some (m0, V1.modelKeyOf m0) := by
      unfold V1.resolveTarget
      rw [hact]
      dsimp only
      rw [hfind]
      dsimp only
      rw [hhead]
    refine ⟨hres, ?_⟩
    intro hok
    unfold V1.createChainTry at hok ⊢
    rw [hres] at hok ⊢
    dsimp only at hok ⊢
    rcases hspec : V1.setChatModel env st (V1.azureAdjust env (V1.modelKeyOf m0) m0)
      with ⟨st1, r⟩
    rw [hspec] at hok
    dsimp only at hok ⊢
    cases r with
    | error e' => exact Except.noConfusion hok
    | ok u =>
      cases u
      show (V1.setChain env st1 st1.chainType _).1.modelKey = V1.modelKeyOf m0
      rw [V1.setChain_modelKey]
      rcases V1.setChatModel_spec env st (V1.azureAdjust env (V1.modelKeyOf m0) m0)
        with ⟨_, hkey2⟩ | ⟨⟨e', he'⟩, _⟩
      · rw [hspec] at hkey2
        simpa [V1.modelKeyOf_azureAdjust] using hkey2
      · rw [hspec] at he'
        simp at he'

theorem c10_witness :
    (V1.createChainTry envC10 stC10).1.chatModel = stC10.chatModel ∧
    (V1.createChainTry envC10 stC10).1.chain = stC10.chain ∧
    V1.resolveTarget envC10 stC10.modelKey = some (bC10, V1.modelKeyOf bC10) :=
  have h := c10_create_chain_never_raises envC10 stC10
  ⟨(h.2.1 _ rfl).1, (h.2.1 _ rfl).2, (h.2.2 [] bC10 rfl rfl rfl).1⟩
